import Mathlib

/-!
Shallow embedding of `src/spotify.py` (class `Spotify`) and verification of
the specification claims about it.

The three operations modelled are `authorization_header`, `search_track`
and `trackinfo`.  HTTP traffic is abstracted away: each operation receives
the (already JSON-decoded) provider response as an argument, and `trackinfo`
receives the provider as a pair of functions from the requested id to the
response.  A Python exception (KeyError, IndexError, ValueError) is modelled
as an error value of the `Except` monad.
-/

set_option autoImplicit false

namespace Spotify

/-- Python exception kinds that the modelled code can raise. -/
inductive PyError where
  | keyError
  | indexError
  | valueError
  deriving DecidableEq, Repr

/-! ### datetime: `strptime` / `strftime`

`trackinfo` calls `datetime.datetime.strptime(date, fmt)` where `fmt` is one
of `"%Y-%m-%d"`, `"%Y-%m"`, `"%Y"` or `""` (the dictionary default for an
unrecognized precision), followed by `.strftime("%B %d, %Y")`.  The parsers
below follow CPython's `_strptime`: `%Y` matches exactly four digits, `%m`
matches `1[0-2]|0[1-9]|[1-9]`, `%d` matches `3[01]|[12]\d|0[1-9]|[1-9]`,
any unconverted trailing data is an error, missing fields default to
year 1900, month 1, day 1, and the resulting `datetime` constructor checks
that the day exists in the given month and that the year is at least 1. -/

structure Date where
  year : Nat
  month : Nat
  day : Nat
  deriving DecidableEq, Repr

def digitVal (c : Char) : Nat := c.toNat - 48

/-- Directive `%Y`: exactly four digits (CPython compiles it to four
digit-class atoms). -/
def parseY4 : List Char → Option (Nat × List Char)
  | c1 :: c2 :: c3 :: c4 :: rest =>
    if c1.isDigit && c2.isDigit && c3.isDigit && c4.isDigit then
      some (((digitVal c1 * 10 + digitVal c2) * 10 + digitVal c3) * 10 + digitVal c4, rest)
    else none
  | _ => none

/-- Directives `%m` (with `hi = 12`) and `%d` (with `hi = 31`): a two-digit value in
`1..hi` if the next two characters form one, else a single digit `1..9`.
For the formats used here this is equivalent to CPython's regex with
backtracking, because the character after the field is never a digit. -/
def parseNum2or1 (hi : Nat) : List Char → Option (Nat × List Char)
  | c1 :: c2 :: rest =>
    if c1.isDigit && c2.isDigit then
      let v := digitVal c1 * 10 + digitVal c2
      if 1 ≤ v && v ≤ hi then some (v, rest)
      else if 1 ≤ digitVal c1 then some (digitVal c1, c2 :: rest)
      else none
    else if c1.isDigit && 1 ≤ digitVal c1 then some (digitVal c1, c2 :: rest)
    else none
  | [c1] =>
    if c1.isDigit && 1 ≤ digitVal c1 then some (digitVal c1, []) else none
  | [] => none

def isLeap (y : Nat) : Bool :=
  (y % 4 == 0 && y % 100 != 0) || y % 400 == 0

def daysInMonth (y m : Nat) : Nat :=
  if m = 2 then (if isLeap y then 29 else 28)
  else if m = 4 ∨ m = 6 ∨ m = 9 ∨ m = 11 then 30
  else 31

/-- Parsing with format `"%Y-%m-%d"` as an `Option`; `none` models `ValueError`. -/
def strptimeYmd (s : String) : Option Date :=
  match parseY4 s.data with
  | some (y, '-' :: rest2) =>
    match parseNum2or1 12 rest2 with
    | some (m, '-' :: rest4) =>
      match parseNum2or1 31 rest4 with
      | some (d, []) =>
        if 1 ≤ y ∧ d ≤ daysInMonth y m then some ⟨y, m, d⟩ else none
      | _ => none
    | _ => none
  | _ => none

/-- Parsing with format `"%Y-%m"`: the day defaults to 1. -/
def strptimeYm (s : String) : Option Date :=
  match parseY4 s.data with
  | some (y, '-' :: rest2) =>
    match parseNum2or1 12 rest2 with
    | some (m, []) => if 1 ≤ y then some ⟨y, m, 1⟩ else none
    | _ => none
  | _ => none

/-- Parsing with format `"%Y"`: month and day default to 1. -/
def strptimeY (s : String) : Option Date :=
  match parseY4 s.data with
  | some (y, []) => if 1 ≤ y then some ⟨y, 1, 1⟩ else none
  | _ => none

/-- Function `datetime.datetime.strptime(date_string, fmt)` for the four format
strings that can reach it from `trackinfo`.  With the empty format the
empty string parses successfully to the all-default date 1900-01-01
(a CPython quirk: `strptime("", "")` is `datetime(1900, 1, 1)`). -/
def strptime (date_string : String) (fmt : String) : Option Date :=
  if fmt = "%Y-%m-%d" then strptimeYmd date_string
  else if fmt = "%Y-%m" then strptimeYm date_string
  else if fmt = "%Y" then strptimeY date_string
  else if fmt = "" then
    if date_string = "" then some ⟨1900, 1, 1⟩ else none
  else none

/-- Directive `%B` of `strftime` (month numbers produced by the parsers are 1..12). -/
def monthName : Nat → String
  | 1 => "January"
  | 2 => "February"
  | 3 => "March"
  | 4 => "April"
  | 5 => "May"
  | 6 => "June"
  | 7 => "July"
  | 8 => "August"
  | 9 => "September"
  | 10 => "October"
  | 11 => "November"
  | 12 => "December"
  | _ => ""

/-- Python's 02d format specifier for a nonnegative `n`: zero-pad to width two. -/
def pad2 (n : Nat) : String :=
  if n < 10 then "0" ++ toString n else toString n

/-- Rendering with format `"%B %d, %Y"`: full month name, zero-padded day, year. -/
def strftimeBdY (d : Date) : String :=
  monthName d.month ++ " " ++ pad2 d.day ++ ", " ++ toString d.year

/-! ### Response shapes

Typed counterparts of the JSON objects the code reads.  A field the code
reads with `.get(key, default)` is an `Option`; fields read with `[...]`
(where the claims exercise absence) are likewise explicit.  List indexing
`[0]` is modelled with `head?`. -/

structure ArtistObj where
  name : String
  deriving DecidableEq, Repr

structure AlbumNameObj where
  name : String
  deriving DecidableEq, Repr

structure SearchItem where
  name : String
  artists : List ArtistObj
  album : AlbumNameObj
  id : String
  deriving DecidableEq, Repr

structure TracksObj where
  items : Option (List SearchItem)
  deriving DecidableEq, Repr

structure SearchResponse where
  tracks : Option TracksObj
  deriving DecidableEq, Repr

structure TokenResponse where
  access_token : Option String
  deriving DecidableEq, Repr

structure ImageObj where
  url : String
  deriving DecidableEq, Repr

structure TrackAlbumObj where
  id : String
  release_date : String
  release_date_precision : String
  images : List ImageObj
  deriving DecidableEq, Repr

structure TrackResponse where
  album : TrackAlbumObj
  name : String
  artists : List ArtistObj
  duration_ms : Nat
  id : String
  deriving DecidableEq, Repr

structure AlbumResponse where
  label : String
  deriving DecidableEq, Repr

/-- One row `[i, name, artist, album, trackid]` appended by `search_track`;
`trackid` is the element the code later reads as `track[4]`. -/
structure Row where
  pos : Nat
  name : String
  artist : String
  album : String
  trackid : String
  deriving DecidableEq, Repr

/-- The dictionary returned by `trackinfo`. -/
structure Info where
  album_id : String
  name : String
  artist : String
  year : String
  duration : String
  image : String
  label : String
  track_id : String
  cover : String
  deriving DecidableEq, Repr

/-! ### The operations -/

/-- Method `authorization_header`: reads the access-token entry of the decoded
response body and stores the bearer header built from it; the stored mapping is
the single pair of the Authorization key and the Bearer value.  A missing
access-token key is a `KeyError`. -/
def authorization_header (data : TokenResponse) : Except PyError (String × String) :=
  match data.access_token with
  | some token => .ok ("Authorization", "Bearer " ++ token)
  | none => .error .keyError

/-- Expression `track_data.get(tracks, default empty dict).get(items, default
empty list)` of `search_track`. -/
def searchItems (track_data : SearchResponse) : List SearchItem :=
  match track_data.tracks with
  | none => []
  | some t =>
    match t.items with
    | none => []
    | some items => items

/-- Loop of `search_track`, enumerating items from 1:
builds the row of position, item name, first artist name, album name and id
for each item, raising `IndexError` when the artists list is empty. -/
def buildRows : Nat → List SearchItem → Except PyError (List Row)
  | _, [] => .ok []
  | i, item :: rest =>
    match item.artists.head? with
    | none => .error .indexError
    | some artist0 =>
      match buildRows (i + 1) rest with
      | .error e => .error e
      | .ok rows =>
        .ok (⟨i, item.name, artist0.name, item.album.name, item.id⟩ :: rows)

/-- Method `search_track`: the limit argument is only forwarded to the provider
inside the query parameters; the items of the response are sliced with
`[:10]` and enumerated from 1. -/
def search_track (track_data : SearchResponse) (_limit : Nat) : Except PyError (List Row) :=
  buildRows 1 ((searchItems track_data).take 10)

/-- Dictionary lookup mapping precision `"day"` to `"%Y-%m-%d"`, `"month"` to
`"%Y-%m"`, `"year"` to `"%Y"`, anything else to the empty format string. -/
def dateFormatFor (precision : String) : String :=
  if precision = "day" then "%Y-%m-%d"
  else if precision = "month" then "%Y-%m"
  else if precision = "year" then "%Y"
  else ""

/-- Method `trackinfo`: fetches the track object for the row's element 4, then the album
object for `t_data["album"]["id"]`, formats the release date and the
duration and assembles the info dictionary.  `strptime` failure is the
`ValueError` raised before the dictionary is built; an empty `artists`
or `images` list is an `IndexError` inside the dictionary literal. -/
def trackinfo (getTrack : String → TrackResponse)
    (getAlbum : String → AlbumResponse) (track : Row) : Except PyError Info :=
  let t_data := getTrack track.trackid
  let a_data := getAlbum t_data.album.id
  let album_label := a_data.label
  let date := t_data.album.release_date
  let precision := t_data.album.release_date_precision
  let date_format := dateFormatFor precision
  match strptime date date_format with
  | none => .error .valueError
  | some d =>
    let release_date := strftimeBdY d
    match t_data.artists.head? with
    | none => .error .indexError
    | some artist0 =>
      match t_data.album.images.head? with
      | none => .error .indexError
      | some image0 =>
        .ok { album_id := t_data.album.id
              name := t_data.name
              artist := artist0.name
              year := t_data.album.release_date
              duration := pad2 (t_data.duration_ms / 60000) ++ ":" ++
                pad2 (t_data.duration_ms / 1000 % 60)
              image := image0.url
              label := release_date ++ "\n" ++ album_label
              track_id := t_data.id
              cover := "./assets/spotify_banner.jpg" }

/-! ### Concrete fixtures used by witnesses and counterexamples -/

def exAlbumResponse : AlbumResponse := { label := "Example Label" }

def exGetAlbum : String → AlbumResponse := fun _ => exAlbumResponse

def exTrackResponse : TrackResponse :=
  { album := { id := "alb1", release_date := "2021-05-10",
               release_date_precision := "day",
               images := [{ url := "https://img.example/alb1.jpg" }] }
    name := "Example Song", artists := [{ name := "Example Artist" }]
    duration_ms := 185000, id := "trk1" }

def exGetTrack : String → TrackResponse := fun _ => exTrackResponse

def exRow : Row :=
  { pos := 1, name := "Example Song", artist := "Example Artist",
    album := "Example Album", trackid := "trk1" }

def exInfo : Info :=
  { album_id := "alb1", name := "Example Song", artist := "Example Artist",
    year := "2021-05-10", duration := "03:05",
    image := "https://img.example/alb1.jpg",
    label := "May 10, 2021\nExample Label", track_id := "trk1",
    cover := "./assets/spotify_banner.jpg" }

/-! ### Inversion principle for `trackinfo` -/

/-- Inversion: `trackinfo` returns a record exactly when the release date parses and
both the `artists` and `images` lists are nonempty; the record's fields are
then determined by the two provider responses. -/
theorem trackinfo_ok_iff (gT : String → TrackResponse) (gA : String → AlbumResponse)
    (track : Row) (info : Info) :
    trackinfo gT gA track = .ok info ↔
      ∃ d artist0 image0,
        strptime (gT track.trackid).album.release_date
          (dateFormatFor (gT track.trackid).album.release_date_precision) = some d ∧
        (gT track.trackid).artists.head? = some artist0 ∧
        (gT track.trackid).album.images.head? = some image0 ∧
        info = { album_id := (gT track.trackid).album.id
                 name := (gT track.trackid).name
                 artist := artist0.name
                 year := (gT track.trackid).album.release_date
                 duration := pad2 ((gT track.trackid).duration_ms / 60000) ++ ":" ++
                   pad2 ((gT track.trackid).duration_ms / 1000 % 60)
                 image := image0.url
                 label := strftimeBdY d ++ "\n" ++ (gA (gT track.trackid).album.id).label
                 track_id := (gT track.trackid).id
                 cover := "./assets/spotify_banner.jpg" } := by
  unfold trackinfo
  cases hs : strptime (gT track.trackid).album.release_date
      (dateFormatFor (gT track.trackid).album.release_date_precision) with
  | none => simp [hs]
  | some d =>
    cases ha : (gT track.trackid).artists.head? with
    | none => simp [hs, ha]
    | some artist0 =>
      cases hi : (gT track.trackid).album.images.head? with
      | none => simp [hs, ha, hi]
      | some image0 =>
        simp only [hs, ha, hi, Except.ok.injEq, Option.some.injEq]
        constructor
        · rintro rfl
          exact ⟨d, artist0, image0, rfl, rfl, rfl, rfl⟩
        · rintro ⟨d2, a2, i2, hd2, ha2, hi2, rfl⟩
          cases hd2; cases ha2; cases hi2; rfl

/-! ### Claims about `authorization_header` -/

/-- C5: for every token response whose body contains an access-token field
with value `t`, the stored authorization header is the mapping
`("Authorization", "Bearer " ++ t)`. -/
theorem C5_auth_header (t : String) :
    authorization_header { access_token := some t } =
      .ok ("Authorization", "Bearer " ++ t) := rfl

/-- C6: for every token response whose body lacks the access-token field,
authentication fails with an unhandled lookup error (`KeyError`); no
authorization header is produced. -/
theorem C6_auth_missing_token :
    authorization_header { access_token := none } = .error .keyError := rfl

/-! ### Claims about `trackinfo` -/

/-- C4: whenever `trackinfo` returns a record, its duration field is the
zero-padded `"MM:SS"` string with `MM = duration_ms / 60000` and
`SS = duration_ms / 1000 % 60`; in particular 185000 ms gives `"03:05"`
and 59000 ms gives `"00:59"`. -/
theorem C4_duration (gT : String → TrackResponse) (gA : String → AlbumResponse)
    (track : Row) (info : Info) (h : trackinfo gT gA track = .ok info) :
    info.duration = pad2 ((gT track.trackid).duration_ms / 60000) ++ ":" ++
      pad2 ((gT track.trackid).duration_ms / 1000 % 60) ∧
    pad2 (185000 / 60000) ++ ":" ++ pad2 (185000 / 1000 % 60) = "03:05" ∧
    pad2 (59000 / 60000) ++ ":" ++ pad2 (59000 / 1000 % 60) = "00:59" := by
  obtain ⟨d, a0, i0, -, -, -, rfl⟩ := (trackinfo_ok_iff gT gA track info).mp h
  exact ⟨rfl, by decide, by decide⟩

/-- C4 witness: the duration claim evaluated on the concrete fixture with
`duration_ms = 185000`. -/
theorem C4_duration_witness :
    trackinfo exGetTrack exGetAlbum exRow = .ok exInfo ∧
    (exInfo.duration = pad2 (185000 / 60000) ++ ":" ++ pad2 (185000 / 1000 % 60) ∧
     pad2 (185000 / 60000) ++ ":" ++ pad2 (185000 / 1000 % 60) = "03:05" ∧
     pad2 (59000 / 60000) ++ ":" ++ pad2 (59000 / 1000 % 60) = "00:59") :=
  ⟨rfl, C4_duration exGetTrack exGetAlbum exRow exInfo rfl⟩

/-- C7: the function `trackinfo` reads only the identifier field (element 4) of the
supplied row: two rows with the same `trackid` give the same result under
the same provider. -/
theorem C7_only_trackid_used (gT : String → TrackResponse)
    (gA : String → AlbumResponse) (t1 t2 : Row) (h : t1.trackid = t2.trackid) :
    trackinfo gT gA t1 = trackinfo gT gA t2 := by
  unfold trackinfo
  rw [h]

/-- C7 witness: two rows differing in position, name, artist and album but
sharing the identifier produce the same record. -/
theorem C7_only_trackid_used_witness :
    ({ pos := 1, name := "A", artist := "B", album := "C", trackid := "trk1" } : Row).trackid =
      ({ pos := 9, name := "X", artist := "Y", album := "Z", trackid := "trk1" } : Row).trackid ∧
    trackinfo exGetTrack exGetAlbum
        { pos := 1, name := "A", artist := "B", album := "C", trackid := "trk1" } =
      trackinfo exGetTrack exGetAlbum
        { pos := 9, name := "X", artist := "Y", album := "Z", trackid := "trk1" } :=
  ⟨by decide, C7_only_trackid_used exGetTrack exGetAlbum _ _ (by decide)⟩


/-- C8: whenever `trackinfo` returns a record, its cover field is the fixed
string `"./assets/spotify_banner.jpg"`. -/
theorem C8_cover_fixed (gT : String → TrackResponse) (gA : String → AlbumResponse)
    (track : Row) (info : Info) (h : trackinfo gT gA track = .ok info) :
    info.cover = "./assets/spotify_banner.jpg" := by
  obtain ⟨d, a0, i0, -, -, -, rfl⟩ := (trackinfo_ok_iff gT gA track info).mp h
  rfl

/-- C8 witness: the cover claim evaluated on the concrete fixture. -/
theorem C8_cover_fixed_witness :
    trackinfo exGetTrack exGetAlbum exRow = .ok exInfo ∧
    exInfo.cover = "./assets/spotify_banner.jpg" :=
  ⟨rfl, C8_cover_fixed exGetTrack exGetAlbum exRow exInfo rfl⟩

/-- C10: whenever `trackinfo` returns a record, its year field is the raw
`release_date` string of the track's album object, verbatim. -/
theorem C10_year_is_raw_release_date (gT : String → TrackResponse)
    (gA : String → AlbumResponse) (track : Row) (info : Info)
    (h : trackinfo gT gA track = .ok info) :
    info.year = (gT track.trackid).album.release_date := by
  obtain ⟨d, a0, i0, -, -, -, rfl⟩ := (trackinfo_ok_iff gT gA track info).mp h
  rfl

/-- C10 witness: on the fixture with release date `"2021-05-10"` the year
field is the full string `"2021-05-10"`, not the year `"2021"` alone and
not the formatted date `"May 10, 2021"`. -/
theorem C10_year_is_raw_release_date_witness :
    trackinfo exGetTrack exGetAlbum exRow = .ok exInfo ∧
    exInfo.year = "2021-05-10" ∧
    exInfo.year ≠ "2021" ∧ exInfo.year ≠ "May 10, 2021" :=
  ⟨rfl,
   C10_year_is_raw_release_date exGetTrack exGetAlbum exRow exInfo rfl,
   by decide, by decide⟩

/-! ### Release-date formatting (claims C1 and C3) -/

theorem strptimeYm_day (s : String) (d : Date) (h : strptimeYm s = some d) :
    d.day = 1 := by
  unfold strptimeYm at h
  split at h
  · split at h
    · split at h
      · cases h; rfl
      · exact absurd h (by simp)
    · exact absurd h (by simp)
  · exact absurd h (by simp)

theorem strptimeY_defaults (s : String) (d : Date) (h : strptimeY s = some d) :
    d.month = 1 ∧ d.day = 1 := by
  unfold strptimeY at h
  split at h
  · split at h
    · cases h; exact ⟨rfl, rfl⟩
    · exact absurd h (by simp)
  · exact absurd h (by simp)

theorem dateFormatFor_other (p : String) (h1 : p ≠ "day") (h2 : p ≠ "month")
    (h3 : p ≠ "year") : dateFormatFor p = "" := by
  unfold dateFormatFor
  rw [if_neg h1, if_neg h2, if_neg h3]

theorem strptime_fmt_Ym (s : String) : strptime s "%Y-%m" = strptimeYm s := by
  unfold strptime
  rw [if_neg (by decide), if_pos rfl]

theorem strptime_fmt_Y (s : String) : strptime s "%Y" = strptimeY s := by
  unfold strptime
  rw [if_neg (by decide), if_neg (by decide), if_pos rfl]

theorem strptime_empty_fmt (s : String) (h : s ≠ "") : strptime s "" = none := by
  unfold strptime
  rw [if_neg (by decide), if_neg (by decide), if_neg (by decide), if_pos rfl,
    if_neg h]

/-- Month-precision fixture: release date `"2021-05"`. -/
def cexGetTrackMonth : String → TrackResponse := fun _ =>
  { album := { id := "alb2", release_date := "2021-05",
               release_date_precision := "month",
               images := [{ url := "https://img.example/alb2.jpg" }] }
    name := "Second Song", artists := [{ name := "Second Artist" }]
    duration_ms := 200000, id := "trk2" }

def cexRowMonth : Row :=
  { pos := 2, name := "Second Song", artist := "Second Artist",
    album := "Second Album", trackid := "trk2" }

def cexInfoMonth : Info :=
  { album_id := "alb2", name := "Second Song", artist := "Second Artist",
    year := "2021-05", duration := "03:20",
    image := "https://img.example/alb2.jpg",
    label := "May 01, 2021\nExample Label", track_id := "trk2",
    cover := "./assets/spotify_banner.jpg" }

/-- C1 counterexample: with precision `"month"` and release date `"2021-05"`
the formatted date embedded in the label is `"May 01, 2021"` (full
`"%B %d, %Y"` output with the day defaulted to 01), not the `"Month YYYY"`
form `"May 2021"` that the claim requires for month precision. -/
theorem C1_counterexample :
    trackinfo cexGetTrackMonth exGetAlbum cexRowMonth = .ok cexInfoMonth ∧
    cexInfoMonth.label = "May 01, 2021" ++ "\n" ++ "Example Label" ∧
    cexInfoMonth.label ≠ "May 2021" ++ "\n" ++ "Example Label" :=
  ⟨rfl, by decide, by decide⟩

/-- C1 (amended): whenever `trackinfo` returns a record, the release date
in its label field is rendered with the full `"%B %d, %Y"` pattern
`Month DD, YYYY` regardless of precision; for precision `"month"` the day
is the default 1 (so the text is `Month 01, YYYY`) and for precision
`"year"` both month and day are the defaults (so it is
`January 01, YYYY`). -/
theorem C1_release_date_format (gT : String → TrackResponse)
    (gA : String → AlbumResponse) (track : Row) (info : Info)
    (h : trackinfo gT gA track = .ok info) :
    ∃ d : Date,
      strptime (gT track.trackid).album.release_date
        (dateFormatFor (gT track.trackid).album.release_date_precision) = some d ∧
      info.label = strftimeBdY d ++ "\n" ++ (gA (gT track.trackid).album.id).label ∧
      strftimeBdY d =
        monthName d.month ++ " " ++ pad2 d.day ++ ", " ++ toString d.year ∧
      ((gT track.trackid).album.release_date_precision = "month" → d.day = 1) ∧
      ((gT track.trackid).album.release_date_precision = "year" →
        d.month = 1 ∧ d.day = 1) := by
  obtain ⟨d, a0, i0, hd, -, -, rfl⟩ := (trackinfo_ok_iff gT gA track info).mp h
  refine ⟨d, hd, rfl, rfl, ?_, ?_⟩
  · intro hp
    rw [hp, show dateFormatFor "month" = "%Y-%m" by decide, strptime_fmt_Ym] at hd
    exact strptimeYm_day _ _ hd
  · intro hp
    rw [hp, show dateFormatFor "year" = "%Y" by decide, strptime_fmt_Y] at hd
    exact strptimeY_defaults _ _ hd

/-- C1 witness: the amended release-date claim evaluated on the
month-precision fixture. -/
theorem C1_release_date_format_witness :
    trackinfo cexGetTrackMonth exGetAlbum cexRowMonth = .ok cexInfoMonth ∧
    ∃ d : Date,
      strptime "2021-05" (dateFormatFor "month") = some d ∧
      cexInfoMonth.label = strftimeBdY d ++ "\n" ++ "Example Label" ∧
      strftimeBdY d =
        monthName d.month ++ " " ++ pad2 d.day ++ ", " ++ toString d.year ∧
      (("month" : String) = "month" → d.day = 1) ∧
      (("month" : String) = "year" → d.month = 1 ∧ d.day = 1) :=
  ⟨rfl, C1_release_date_format cexGetTrackMonth exGetAlbum cexRowMonth cexInfoMonth rfl⟩

/-- Fixture with an unrecognized precision and an empty release date. -/
def cexGetTrackEmptyDate : String → TrackResponse := fun _ =>
  { album := { id := "alb3", release_date := "",
               release_date_precision := "decade",
               images := [{ url := "https://img.example/alb3.jpg" }] }
    name := "Old Song", artists := [{ name := "Old Artist" }]
    duration_ms := 59000, id := "trk3" }

def cexRowEmptyDate : Row :=
  { pos := 3, name := "Old Song", artist := "Old Artist",
    album := "Old Album", trackid := "trk3" }

def cexInfoEmptyDate : Info :=
  { album_id := "alb3", name := "Old Song", artist := "Old Artist",
    year := "", duration := "00:59",
    image := "https://img.example/alb3.jpg",
    label := "January 01, 1900\nExample Label", track_id := "trk3",
    cover := "./assets/spotify_banner.jpg" }

/-- C3 counterexample: with the unrecognized precision `"decade"` but an
empty release-date string, `strptime("", "")` succeeds with the all-default
date, so `trackinfo` does NOT fail: it silently returns a record whose label
carries the default date `"January 01, 1900"`. -/
theorem C3_counterexample :
    (cexGetTrackEmptyDate "trk3").album.release_date_precision = "decade" ∧
    trackinfo cexGetTrackEmptyDate exGetAlbum cexRowEmptyDate = .ok cexInfoEmptyDate ∧
    cexInfoEmptyDate.label = "January 01, 1900\nExample Label" :=
  ⟨rfl, rfl, rfl⟩

/-- C3 (amended): for every response whose precision is none of `"day"`,
`"month"`, `"year"` and whose release-date string is nonempty, `trackinfo`
fails with the date-formatting error (`ValueError` from `strptime`) and
returns no record; only the empty release-date string escapes this, where
the default date 1900-01-01 is silently substituted. -/
theorem C3_unrecognized_precision (gT : String → TrackResponse)
    (gA : String → AlbumResponse) (track : Row)
    (h1 : (gT track.trackid).album.release_date_precision ≠ "day")
    (h2 : (gT track.trackid).album.release_date_precision ≠ "month")
    (h3 : (gT track.trackid).album.release_date_precision ≠ "year")
    (h4 : (gT track.trackid).album.release_date ≠ "") :
    trackinfo gT gA track = .error .valueError := by
  simp only [trackinfo]
  rw [dateFormatFor_other _ h1 h2 h3, strptime_empty_fmt _ h4]

/-- Fixture with an unrecognized precision and a nonempty release date. -/
def cexGetTrackDecade : String → TrackResponse := fun _ =>
  { album := { id := "alb4", release_date := "1990s",
               release_date_precision := "decade",
               images := [{ url := "https://img.example/alb4.jpg" }] }
    name := "Retro Song", artists := [{ name := "Retro Artist" }]
    duration_ms := 123000, id := "trk4" }

def cexRowDecade : Row :=
  { pos := 4, name := "Retro Song", artist := "Retro Artist",
    album := "Retro Album", trackid := "trk4" }

/-- C3 witness: the amended claim evaluated on the nonempty-date fixture
with precision `"decade"`. -/
theorem C3_unrecognized_precision_witness :
    (cexGetTrackDecade "trk4").album.release_date_precision ≠ "day" ∧
    (cexGetTrackDecade "trk4").album.release_date_precision ≠ "month" ∧
    (cexGetTrackDecade "trk4").album.release_date_precision ≠ "year" ∧
    (cexGetTrackDecade "trk4").album.release_date ≠ "" ∧
    trackinfo cexGetTrackDecade exGetAlbum cexRowDecade = .error .valueError :=
  ⟨by decide, by decide, by decide, by decide,
   C3_unrecognized_precision cexGetTrackDecade exGetAlbum cexRowDecade
     (by decide) (by decide) (by decide) (by decide)⟩

/-! ### Claims about `search_track` -/

/-- Structure of a successful `buildRows` run: one row per item, in order,
with consecutive positions starting at `start`. -/
theorem buildRows_ok (items : List SearchItem) (start : Nat)
    (h : ∀ it ∈ items, it.artists ≠ []) :
    ∃ rows, buildRows start items = .ok rows ∧
      rows.length = items.length ∧
      ∀ j : Fin rows.length, ∃ hj : j.val < items.length,
        (rows.get j).pos = start + j.val ∧
        (rows.get j).name = (items.get ⟨j.val, hj⟩).name ∧
        (rows.get j).album = (items.get ⟨j.val, hj⟩).album.name ∧
        (rows.get j).trackid = (items.get ⟨j.val, hj⟩).id ∧
        ∃ a0, (items.get ⟨j.val, hj⟩).artists.head? = some a0 ∧
          (rows.get j).artist = a0.name := by
  induction items generalizing start with
  | nil =>
    exact ⟨[], rfl, rfl, fun j => absurd j.isLt (by simp)⟩
  | cons item rest ih =>
    obtain ⟨a0, ha0⟩ : ∃ a0, item.artists.head? = some a0 := by
      cases hart : item.artists with
      | nil => exact absurd hart (h item (List.mem_cons_self ..))
      | cons a t => exact ⟨a, rfl⟩
    obtain ⟨rows, hok, hlen, hget⟩ :=
      ih (start + 1) (fun it hit => h it (List.mem_cons_of_mem _ hit))
    refine ⟨⟨start, item.name, a0.name, item.album.name, item.id⟩ :: rows,
      ?_, by simp [hlen], ?_⟩
    · unfold buildRows
      rw [ha0, hok]
    · rintro ⟨j, hjlt⟩
      cases j with
      | zero =>
        exact ⟨Nat.succ_pos _, by simp, rfl, rfl, rfl, a0, ha0, rfl⟩
      | succ n =>
        have hn : n < rows.length := Nat.lt_of_succ_lt_succ hjlt
        obtain ⟨hj, hpos, hname, halb, hid, a1, ha1, hart⟩ := hget ⟨n, hn⟩
        refine ⟨Nat.succ_lt_succ hj, ?_, hname, halb, hid, a1, ha1, hart⟩
        rw [show start + (n + 1) = start + 1 + n from by omega]
        exact hpos

/-- C2: for every search response whose (first ten) items each have at
least one artist, and for every value of `limit`, `search_track` returns
exactly `min N 10` rows (`N` the number of items), in the order of the
response, with 1-based positions `1..min N 10`; with 0 items the result is
the empty list. -/
theorem C2_search_track_rows (resp : SearchResponse) (limit : Nat)
    (h : ∀ it ∈ (searchItems resp).take 10, it.artists ≠ []) :
    ∃ rows, search_track resp limit = .ok rows ∧
      rows.length = min (searchItems resp).length 10 ∧
      ∀ j : Fin rows.length, ∃ hj : j.val < (searchItems resp).length,
        (rows.get j).pos = j.val + 1 ∧
        (rows.get j).name = ((searchItems resp).get ⟨j.val, hj⟩).name ∧
        (rows.get j).album = ((searchItems resp).get ⟨j.val, hj⟩).album.name ∧
        (rows.get j).trackid = ((searchItems resp).get ⟨j.val, hj⟩).id := by
  obtain ⟨rows, hok, hlen, hget⟩ := buildRows_ok ((searchItems resp).take 10) 1 h
  refine ⟨rows, hok, by rw [hlen, List.length_take, Nat.min_comm], ?_⟩
  intro j
  obtain ⟨hj, hpos, hname, halb, hid, -⟩ := hget j
  have hj2 : j.val < (searchItems resp).length := by
    have := List.length_take 10 (searchItems resp)
    omega
  have htake : ∀ hx : j.val < ((searchItems resp).take 10).length,
      ((searchItems resp).take 10).get ⟨j.val, hx⟩ =
        (searchItems resp).get ⟨j.val, hj2⟩ := by
    intro hx
    simp [List.getElem_take]
  refine ⟨hj2, by omega, ?_, ?_, ?_⟩
  · rw [hname, htake hj]
  · rw [halb, htake hj]
  · rw [hid, htake hj]

/-- Items of the two-item search response fixture. -/
def exSearchItems : List SearchItem :=
  [ { name := "First", artists := [{ name := "A1" }],
      album := { name := "Alb1" }, id := "id1" },
    { name := "Second", artists := [{ name := "A2" }],
      album := { name := "Alb2" }, id := "id2" } ]

/-- Two-item search response fixture. -/
def exSearchResponse : SearchResponse :=
  { tracks := some { items := some exSearchItems } }

/-- C2 witness: the row-structure claim evaluated on the two-item fixture
with `limit = 5`. -/
theorem C2_search_track_rows_witness :
    (∀ it ∈ (searchItems exSearchResponse).take 10, it.artists ≠ []) ∧
    ∃ rows, search_track exSearchResponse 5 = .ok rows ∧
      rows.length = min (searchItems exSearchResponse).length 10 ∧
      ∀ j : Fin rows.length, ∃ hj : j.val < (searchItems exSearchResponse).length,
        (rows.get j).pos = j.val + 1 ∧
        (rows.get j).name = ((searchItems exSearchResponse).get ⟨j.val, hj⟩).name ∧
        (rows.get j).album =
          ((searchItems exSearchResponse).get ⟨j.val, hj⟩).album.name ∧
        (rows.get j).trackid = ((searchItems exSearchResponse).get ⟨j.val, hj⟩).id :=
  ⟨by simp [searchItems, exSearchResponse, exSearchItems],
   C2_search_track_rows exSearchResponse 5
     (by simp [searchItems, exSearchResponse, exSearchItems])⟩

/-- C9: a response without the `"tracks"` key, or whose tracks object lacks
the `"items"` key, yields the empty row list (the defaults `{}` and `[]`
absorb the missing keys), not an error. -/
theorem C9_missing_keys_empty (resp : SearchResponse) (limit : Nat)
    (h : resp.tracks = none ∨ ∃ t, resp.tracks = some t ∧ t.items = none) :
    search_track resp limit = .ok [] := by
  have hi : searchItems resp = [] := by
    rcases h with hnone | ⟨t, ht, hti⟩
    · simp [searchItems, hnone]
    · simp [searchItems, ht, hti]
  unfold search_track
  rw [hi]
  rfl

/-- C9 witness: the missing-keys claim evaluated on the response with no
`"tracks"` key. -/
theorem C9_missing_keys_empty_witness :
    (({ tracks := none } : SearchResponse).tracks = none ∨
      ∃ t, ({ tracks := none } : SearchResponse).tracks = some t ∧ t.items = none) ∧
    search_track { tracks := none } 5 = .ok [] :=
  ⟨Or.inl rfl, C9_missing_keys_empty { tracks := none } 5 (Or.inl rfl)⟩

end Spotify
